import Mathlib

/-!
# Verification of the X-ray image-processing calibration pipeline

Shallow embedding of the calibration core of `src/main.cpp`:
`process_data` (background subtraction, beta-thorne row calibration,
detector column calibration, clamping), the normalized-view pixel
encoder of `create_and_save_image`, and the thickness transform of
`calculate_and_save_thickness`.

The C++ `double` arithmetic of the pipeline is modelled with exact
rationals (`ℚ`); in the model, division by zero yields `0`.  The
thickness transform uses the real logarithm and is modelled over `ℝ`.
A raw grid is a height, a width and a total function giving the raw
reading of each cell; all claims quantify only over in-range indices.
-/

namespace XRay

/-- `SIGNAL_THRESHOLD` (src/main.cpp line 15). -/
def SIGNAL_THRESHOLD : ℤ := 2048

/-- `BETA_THORNE_ROWS_COUNT` (src/main.cpp line 16). -/
def BETA_THORNE_ROWS_COUNT : ℕ := 15

/-- `MEDIAN_DETECTOR_COUNT` (src/main.cpp line 17). -/
def MEDIAN_DETECTOR_COUNT : ℕ := 50

/-- A raw input grid: `height × width` signed integer readings
(the `std::vector<std::vector<int>>` returned by `read_data_from_file`;
rectangularity is built in by using a total entry function). -/
structure RawGrid where
  m : ℕ
  n : ℕ
  data : ℕ → ℕ → ℤ

/-- `struct PixelData` (src/main.cpp lines 25-28), with `double value`
modelled as `ℚ`. -/
structure PixelData where
  value : ℚ
  is_calibrated : Bool
deriving DecidableEq

/-- The calibrated grid produced by `process_data`. -/
structure CalGrid where
  m : ℕ
  n : ℕ
  cell : ℕ → ℕ → PixelData

/-- Stage 1, background normalization (src/main.cpp lines 143-152):
`value = data[i][j] - SIGNAL_THRESHOLD` if the reading exceeds the
threshold, else `0`. -/
def bgValue (g : RawGrid) (i j : ℕ) : ℚ :=
  if g.data i j > SIGNAL_THRESHOLD then ((g.data i j - SIGNAL_THRESHOLD : ℤ) : ℚ) else 0

/-- `median_betathrone[j]` (src/main.cpp lines 158-166): the mean of the
stage-1 values of the last `BETA_THORNE_ROWS_COUNT` rows at column `j`. -/
def median_betathrone (g : RawGrid) (j : ℕ) : ℚ :=
  (∑ i in Finset.Ico (g.m - BETA_THORNE_ROWS_COUNT) g.m, bgValue g i j)
    / (BETA_THORNE_ROWS_COUNT : ℚ)

/-- `overall_median` (src/main.cpp line 167): the mean of
`median_betathrone` over all columns. -/
def overall_median (g : RawGrid) : ℚ :=
  (∑ j in Finset.range g.n, median_betathrone g j) / (g.n : ℚ)

/-- The `is_calibrated` flag after the beta-thorne stage
(src/main.cpp line 163): exactly the last `BETA_THORNE_ROWS_COUNT` rows
(for in-range row indices `i < g.m`). -/
def rowFlag (g : RawGrid) (i : ℕ) : Bool :=
  decide (g.m - BETA_THORNE_ROWS_COUNT ≤ i)

/-- Stage 2, beta-thorne row calibration (src/main.cpp lines 169-181):
cells flagged by the row stage keep their stage-1 value; other cells are
scaled by `overall_median / median_betathrone[j]` when that reference is
nonzero and forced to `0` when it is zero. -/
def rowCalValue (g : RawGrid) (i j : ℕ) : ℚ :=
  if rowFlag g i then bgValue g i j
  else if median_betathrone g j ≠ 0 then
    bgValue g i j * (overall_median g / median_betathrone g j)
  else 0

/-- `median_detector[i]` (src/main.cpp lines 187-197): the sum of the
stage-2 values of the last `MEDIAN_DETECTOR_COUNT` columns of row `i`,
counting only cells not already calibrated (i.e. not in the last
`BETA_THORNE_ROWS_COUNT` rows), divided by the fixed constant
`MEDIAN_DETECTOR_COUNT`. -/
def median_detector (g : RawGrid) (i : ℕ) : ℚ :=
  (∑ j in Finset.Ico (g.n - MEDIAN_DETECTOR_COUNT) g.n,
      if rowFlag g i then 0 else rowCalValue g i j)
    / (MEDIAN_DETECTOR_COUNT : ℚ)

/-- The `is_calibrated` flag after the detector stage
(src/main.cpp line 193): the last `BETA_THORNE_ROWS_COUNT` rows or the
last `MEDIAN_DETECTOR_COUNT` columns (for in-range indices). -/
def calibratedFlag (g : RawGrid) (i j : ℕ) : Bool :=
  rowFlag g i || decide (g.n - MEDIAN_DETECTOR_COUNT ≤ j)

/-- Stage 3, detector column calibration (src/main.cpp lines 199-203):
cells not yet calibrated are divided by `median_detector[i]`
(in this exact-rational model a zero divisor yields `0`; the C++ code
would produce an IEEE infinity or NaN there, the sharp edge the spec
documents — `detCalValueIEEE` below refines this definition with the
IEEE outcome of that division). -/
def detCalValue (g : RawGrid) (i j : ℕ) : ℚ :=
  if calibratedFlag g i j then rowCalValue g i j
  else rowCalValue g i j / median_detector g i

/-- Stage 4, clamping (src/main.cpp lines 204-206): every cell with
`value > 1.0` is set to `1.0`. -/
def clampedValue (g : RawGrid) (i j : ℕ) : ℚ :=
  if detCalValue g i j > 1 then 1 else detCalValue g i j

/-- The grid returned by `process_data` on success (src/main.cpp
lines 138-210): same dimensions as the input, each cell holding its
stage-4 value and its final calibration flag. -/
def calibrate (g : RawGrid) : CalGrid :=
  ⟨g.m, g.n, fun i j => ⟨clampedValue g i j, calibratedFlag g i j⟩⟩

/-- The two dimension errors thrown by `process_data`
(src/main.cpp lines 156 and 185). -/
inductive ProcError where
  | notEnoughRows
  | notEnoughCols
deriving DecidableEq

/-- `process_data` (src/main.cpp lines 138-210) with its control flow:
the insufficient-rows check (line 155) precedes the whole detector
stage, whose own check is at line 184; on failure no grid is returned. -/
def process_data (g : RawGrid) : Except ProcError CalGrid :=
  if g.m < BETA_THORNE_ROWS_COUNT then .error .notEnoughRows
  else if g.n < MEDIAN_DETECTOR_COUNT then .error .notEnoughCols
  else .ok (calibrate g)

/-- A 24-bit pixel; the source stores it as three bytes in BGR order
(indices `+0 = blue`, `+1 = green`, `+2 = red`, src/main.cpp
lines 221-228); channels are modelled as the integers the casts produce. -/
structure RGB where
  r : ℤ
  g : ℤ
  b : ℤ
deriving DecidableEq

/-- C++ `static_cast` from a floating value to an integer type truncates
toward zero (src/main.cpp line 225). -/
def truncTowardZero (q : ℚ) : ℤ := if 0 ≤ q then ⌊q⌋ else ⌈q⌉

/-- The per-cell pixel encoder of `create_and_save_image`
(src/main.cpp lines 217-231): calibrated cells become full red;
other cells become the gray level `static_cast<unsigned char>(value * 255)`. -/
def encodePixel (c : PixelData) : RGB :=
  if c.is_calibrated then ⟨255, 0, 0⟩
  else
    let cv := truncTowardZero (c.value * 255)
    ⟨cv, cv, cv⟩

/-- The normalized-view image of `create_and_save_image` as a function
from cell coordinates to its emitted pixel. -/
def createImage (d : CalGrid) (i j : ℕ) : RGB := encodePixel (d.cell i j)

/-- Modelled from the spec: the `round(value * 255)` the spec prescribes
for the gray channels, rounding half away from zero as C++ `std::round`
does. Used only to compare the spec's encoder against the source's. -/
def roundHalfAway (q : ℚ) : ℤ := if 0 ≤ q then ⌊q + 1/2⌋ else ⌈q - 1/2⌉

/-- Rounding half away from zero over `ℝ`, the behaviour of
`std::round` (src/main.cpp line 249). -/
noncomputable def roundHalfAwayR (x : ℝ) : ℤ := if 0 ≤ x then ⌊x + 1/2⌋ else ⌈x - 1/2⌉

/-- The per-cell thickness transform of `calculate_and_save_thickness`
(src/main.cpp lines 244-256): `t = -log v` when `v > 0`, else the
sentinel `10.0`; then `round(t * 25.0)` clamped below at `0` and above
at `255`. -/
noncomputable def thicknessByte (v : ℝ) : ℤ :=
  let t : ℝ := if v > 0 then -Real.log v else 10
  let iv : ℤ := roundHalfAwayR (t * 25)
  let iv0 : ℤ := if iv < 0 then 0 else iv
  if iv0 > 255 then 255 else iv0

/-- The thickness transform applied to a calibrated cell: the source
reads only `data[i][j].value` (src/main.cpp line 247). -/
noncomputable def thicknessOfCell (c : PixelData) : ℤ := thicknessByte (c.value : ℝ)

/-- Constant witness grid of minimum admissible size, raw reading 3000. -/
def gConst : RawGrid := ⟨15, 50, fun _ _ => 3000⟩

/-- All-zero witness grid with one non-reference row. -/
def gZero16 : RawGrid := ⟨16, 50, fun _ _ => 0⟩

/-- Witness grid with too few rows for the beta-thorne stage. -/
def gSmallRows : RawGrid := ⟨10, 60, fun _ _ => 0⟩

/-- Counterexample grid: row `0` is not a reference row, its raw
readings exceed the threshold by `1`; reference column `0` averages `49`
while the other columns average `24`, so stage 2 scales row-0 cells of
column `0` by `1/2` before stage 3 marks them calibrated. -/
def gScaled : RawGrid :=
  ⟨16, 50, fun i j => if i = 0 then 2049 else if j = 0 then 2097 else 2072⟩

/-- One-cell calibrated grid holding an uncalibrated gray cell. -/
def dGray : CalGrid := ⟨1, 1, fun _ _ => ⟨1/2, false⟩⟩

/-- An extended `double` value as it can exist after stage 3: every
value entering stage 3 is finite (stage 1 produces integers and the
guarded stage-2 scaling keeps values finite), so the division at
src/main.cpp line 202 is the pipeline's only source of a non-finite
value. -/
inductive DVal where
  | fin (q : ℚ)
  | posInf
  | negInf
  | nan
deriving DecidableEq

/-- IEEE `double` division for a finite numerator and divisor:
`x / 0` is `+inf` for `x > 0`, `-inf` for `x < 0`, and NaN for `0 / 0`. -/
def divIEEE (x y : ℚ) : DVal :=
  if y ≠ 0 then .fin (x / y)
  else if x > 0 then .posInf
  else if x < 0 then .negInf
  else .nan

/-- Stage 3 refined (src/main.cpp lines 199-203): the same computation
as `detCalValue` but with the IEEE outcome of `value /= median_detector[i]`
kept instead of the rational convention `x / 0 = 0`. -/
def detCalValueIEEE (g : RawGrid) (i j : ℕ) : DVal :=
  if calibratedFlag g i j then .fin (rowCalValue g i j)
  else divIEEE (rowCalValue g i j) (median_detector g i)

/-- Stage 4 refined (src/main.cpp lines 204-206): `if (value > 1.0)
value = 1.0` under IEEE comparison — `+inf > 1.0` is true so `+inf` is
clamped to `1.0`, while `NaN > 1.0` and `-inf > 1.0` are false so NaN
and `-inf` pass through unchanged. -/
def clampIEEE : DVal → DVal
  | .fin q => .fin (if q > 1 then 1 else q)
  | .posInf => .fin 1
  | .negInf => .negInf
  | .nan => .nan

/-- The IEEE comparison `value <= 1.0`: false for NaN and `+inf`,
true for `-inf`. -/
def leOneIEEE : DVal → Prop
  | .fin q => q ≤ 1
  | .posInf => False
  | .negInf => True
  | .nan => False

/-- All-zero grid with one non-reference row and one non-reference
column: its cell `(0,0)` reaches the stage-3 division as `0.0 / 0.0`. -/
def gDeg : RawGrid := ⟨16, 51, fun _ _ => 0⟩

/-! ## Nonnegativity of every stage -/

theorem bgValue_nonneg (g : RawGrid) (i j : ℕ) : 0 ≤ bgValue g i j := by
  unfold bgValue
  split_ifs with h
  · exact_mod_cast Int.sub_nonneg.mpr (le_of_lt h)
  · exact le_refl 0

theorem median_betathrone_nonneg (g : RawGrid) (j : ℕ) : 0 ≤ median_betathrone g j :=
  div_nonneg (Finset.sum_nonneg fun i _ => bgValue_nonneg g i j) (by norm_num)

theorem overall_median_nonneg (g : RawGrid) : 0 ≤ overall_median g :=
  div_nonneg (Finset.sum_nonneg fun j _ => median_betathrone_nonneg g j) (Nat.cast_nonneg _)

theorem rowCalValue_nonneg (g : RawGrid) (i j : ℕ) : 0 ≤ rowCalValue g i j := by
  unfold rowCalValue
  split_ifs
  · exact bgValue_nonneg g i j
  · exact mul_nonneg (bgValue_nonneg g i j)
      (div_nonneg (overall_median_nonneg g) (median_betathrone_nonneg g j))
  · exact le_refl 0

theorem median_detector_nonneg (g : RawGrid) (i : ℕ) : 0 ≤ median_detector g i :=
  div_nonneg
    (Finset.sum_nonneg fun j _ => by
      split_ifs
      · exact le_refl 0
      · exact rowCalValue_nonneg g i j)
    (by norm_num)

theorem detCalValue_nonneg (g : RawGrid) (i j : ℕ) : 0 ≤ detCalValue g i j := by
  unfold detCalValue
  split_ifs
  · exact rowCalValue_nonneg g i j
  · exact div_nonneg (rowCalValue_nonneg g i j) (median_detector_nonneg g i)

theorem clampedValue_nonneg (g : RawGrid) (i j : ℕ) : 0 ≤ clampedValue g i j := by
  unfold clampedValue
  split_ifs
  · norm_num
  · exact detCalValue_nonneg g i j

/-! ## Claim theorems -/

/-- Claim C1: for every raw grid with height at least 15 and width at
least 50, a cell of the grid returned by `process_data` has
`is_calibrated = true` iff it lies in the last `BETA_THORNE_ROWS_COUNT`
rows or the last `MEDIAN_DETECTOR_COUNT` columns; every cell outside the
union of the two strips has `is_calibrated = false`. -/
theorem calibrated_iff_reference_strip (g : RawGrid)
    (h1 : BETA_THORNE_ROWS_COUNT ≤ g.m) (h2 : MEDIAN_DETECTOR_COUNT ≤ g.n)
    (i j : ℕ) (hi : i < g.m) (hj : j < g.n) :
    ((calibrate g).cell i j).is_calibrated = true ↔
      g.m - BETA_THORNE_ROWS_COUNT ≤ i ∨ g.n - MEDIAN_DETECTOR_COUNT ≤ j := by
  show calibratedFlag g i j = true ↔ _
  unfold calibratedFlag rowFlag
  simp

theorem calibrated_iff_reference_strip_witness :
    BETA_THORNE_ROWS_COUNT ≤ gConst.m ∧ MEDIAN_DETECTOR_COUNT ≤ gConst.n ∧
      (0 : ℕ) < gConst.m ∧ (0 : ℕ) < gConst.n ∧
      (((calibrate gConst).cell 0 0).is_calibrated = true ↔
        gConst.m - BETA_THORNE_ROWS_COUNT ≤ 0 ∨ gConst.n - MEDIAN_DETECTOR_COUNT ≤ 0) :=
  ⟨by decide, by decide, by decide, by decide,
    calibrated_iff_reference_strip gConst (by decide) (by decide) 0 0 (by decide) (by decide)⟩

/-- Every beta-thorne column reference of the all-zero grid `gDeg` is
zero. -/
theorem median_betathrone_gDeg (j : ℕ) : median_betathrone gDeg j = 0 := by
  unfold median_betathrone
  have hz : ∀ i ∈ Finset.Ico (gDeg.m - BETA_THORNE_ROWS_COUNT) gDeg.m,
      bgValue gDeg i j = 0 := by
    intro i _
    norm_num [bgValue, gDeg, SIGNAL_THRESHOLD]
  rw [Finset.sum_eq_zero hz, zero_div]

/-- Row `0` of `gDeg` enters stage 3 with every value forced to zero by
the zero-reference branch of stage 2. -/
theorem rowCalValue_gDeg_row0 (j : ℕ) : rowCalValue gDeg 0 j = 0 := by
  unfold rowCalValue
  rw [show rowFlag gDeg 0 = false from rfl]
  simp [median_betathrone_gDeg]

/-- The detector reference of row `0` of `gDeg` is zero. -/
theorem median_detector_gDeg_row0 : median_detector gDeg 0 = 0 := by
  unfold median_detector
  have hz : ∀ j ∈ Finset.Ico (gDeg.n - MEDIAN_DETECTOR_COUNT) gDeg.n,
      (if rowFlag gDeg 0 then (0 : ℚ) else rowCalValue gDeg 0 j) = 0 := by
    intro j _
    rw [show rowFlag gDeg 0 = false from rfl]
    simp [rowCalValue_gDeg_row0]
  rw [Finset.sum_eq_zero hz, zero_div]

/-- Claim C2 counterexample: on the all-zero 16×51 grid `gDeg` — within
the claim's scope — the uncalibrated cell `(0,0)` reaches the stage-3
division with value `0` and detector reference `0`, so src/main.cpp
line 202 computes `0.0 / 0.0 = NaN`; the clamp's `value > 1.0` test is
false for NaN, the NaN survives to the output, and IEEE `value ≤ 1.0`
is false of it.  This refutes the unconditional `value ≤ 1` claim (the
DegenerateReference sharp edge the spec documents in section 7). -/
theorem nan_escapes_clamp :
    BETA_THORNE_ROWS_COUNT ≤ gDeg.m ∧ MEDIAN_DETECTOR_COUNT ≤ gDeg.n ∧
      ((calibrate gDeg).cell 0 0).is_calibrated = false ∧
      rowCalValue gDeg 0 0 = 0 ∧ median_detector gDeg 0 = 0 ∧
      clampIEEE (detCalValueIEEE gDeg 0 0) = DVal.nan ∧
      ¬ leOneIEEE (clampIEEE (detCalValueIEEE gDeg 0 0)) := by
  have hflag : calibratedFlag gDeg 0 0 = false := rfl
  have hd : detCalValueIEEE gDeg 0 0 = DVal.nan := by
    unfold detCalValueIEEE
    rw [hflag, if_neg (by simp), rowCalValue_gDeg_row0, median_detector_gDeg_row0]
    unfold divIEEE
    norm_num
  refine ⟨by decide, by decide, hflag, rowCalValue_gDeg_row0 0,
    median_detector_gDeg_row0, ?_, ?_⟩
  · rw [hd]
    rfl
  · rw [hd]
    exact fun h => h

/-- Claim C2 as amended: with the stage-3 division given its IEEE
semantics, every output cell whose stage-3 computation is not the
degenerate `0/0` NaN ends as a finite value `≤ 1` — in particular a
positive value divided by a zero detector reference becomes `+inf`,
which the stage-4 clamp does catch; only the `0/0` NaN cells escape the
clamp. -/
theorem clamped_le_one_unless_nan (g : RawGrid)
    (h1 : BETA_THORNE_ROWS_COUNT ≤ g.m) (h2 : MEDIAN_DETECTOR_COUNT ≤ g.n)
    (i j : ℕ) (hi : i < g.m) (hj : j < g.n)
    (hnd : detCalValueIEEE g i j ≠ DVal.nan) :
    ∃ q : ℚ, clampIEEE (detCalValueIEEE g i j) = DVal.fin q ∧ q ≤ 1 := by
  by_cases hc : calibratedFlag g i j = true
  · have hd : detCalValueIEEE g i j = DVal.fin (rowCalValue g i j) := by
      unfold detCalValueIEEE
      rw [if_pos hc]
    rw [hd]
    refine ⟨_, rfl, ?_⟩
    split_ifs with h
    · exact le_refl 1
    · exact le_of_not_lt h
  · by_cases hy : median_detector g i = 0
    · by_cases hx : rowCalValue g i j > 0
      · have hd : detCalValueIEEE g i j = DVal.posInf := by
          unfold detCalValueIEEE divIEEE
          rw [if_neg hc, if_neg (not_not_intro hy), if_pos hx]
        rw [hd]
        exact ⟨1, rfl, le_refl 1⟩
      · have hx0 : rowCalValue g i j = 0 :=
          le_antisymm (not_lt.mp hx) (rowCalValue_nonneg g i j)
        have hd : detCalValueIEEE g i j = DVal.nan := by
          unfold detCalValueIEEE divIEEE
          rw [if_neg hc, if_neg (not_not_intro hy), if_neg hx,
            if_neg (by rw [hx0]; exact lt_irrefl 0)]
        exact absurd hd hnd
    · have hd : detCalValueIEEE g i j =
          DVal.fin (rowCalValue g i j / median_detector g i) := by
        unfold detCalValueIEEE divIEEE
        rw [if_neg hc, if_pos hy]
      rw [hd]
      refine ⟨_, rfl, ?_⟩
      split_ifs with h
      · exact le_refl 1
      · exact le_of_not_lt h

/-- Cell `(0,0)` of `gConst` is calibrated, so its refined stage-3
value is finite. -/
theorem detCalValueIEEE_gConst_00 :
    detCalValueIEEE gConst 0 0 = DVal.fin (rowCalValue gConst 0 0) := by
  unfold detCalValueIEEE
  rw [if_pos (show calibratedFlag gConst 0 0 = true from rfl)]

theorem clamped_le_one_unless_nan_witness :
    BETA_THORNE_ROWS_COUNT ≤ gConst.m ∧ MEDIAN_DETECTOR_COUNT ≤ gConst.n ∧
      detCalValueIEEE gConst 0 0 ≠ DVal.nan ∧
      (∃ q : ℚ, clampIEEE (detCalValueIEEE gConst 0 0) = DVal.fin q ∧ q ≤ 1) :=
  ⟨by decide, by decide,
    fun h => DVal.noConfusion (detCalValueIEEE_gConst_00 ▸ h),
    clamped_le_one_unless_nan gConst (by decide) (by decide) 0 0 (by decide) (by decide)
      (fun h => DVal.noConfusion (detCalValueIEEE_gConst_00 ▸ h))⟩

/-- Claim C5: for every raw grid with positive dimensions,
`process_data` fails iff `height < 15` or `width < 50`; with fewer than
15 rows it raises the insufficient-rows error (the row check precedes
the whole detector stage), and on failure no grid is returned (the
`Except` carries no partial grid). -/
theorem process_data_invalid_dimensions (g : RawGrid) (hm : 0 < g.m) (hn : 0 < g.n) :
    ((∃ cg, process_data g = Except.ok cg) ↔
        BETA_THORNE_ROWS_COUNT ≤ g.m ∧ MEDIAN_DETECTOR_COUNT ≤ g.n) ∧
      (g.m < BETA_THORNE_ROWS_COUNT →
        process_data g = Except.error ProcError.notEnoughRows) ∧
      (BETA_THORNE_ROWS_COUNT ≤ g.m → g.n < MEDIAN_DETECTOR_COUNT →
        process_data g = Except.error ProcError.notEnoughCols) := by
  unfold process_data
  refine ⟨⟨?_, ?_⟩, ?_, ?_⟩
  · rintro ⟨cg, hcg⟩
    by_cases hr : g.m < BETA_THORNE_ROWS_COUNT
    · rw [if_pos hr] at hcg
      exact absurd hcg (by simp)
    · by_cases hc : g.n < MEDIAN_DETECTOR_COUNT
      · rw [if_neg hr, if_pos hc] at hcg
        exact absurd hcg (by simp)
      · exact ⟨le_of_not_lt hr, le_of_not_lt hc⟩
  · rintro ⟨ha, hb⟩
    exact ⟨calibrate g, by rw [if_neg (not_lt.mpr ha), if_neg (not_lt.mpr hb)]⟩
  · intro h
    rw [if_pos h]
  · intro ha hb
    rw [if_neg (not_lt.mpr ha), if_pos hb]

theorem process_data_invalid_dimensions_witness :
    (0 : ℕ) < gSmallRows.m ∧ (0 : ℕ) < gSmallRows.n ∧
      ((∃ cg, process_data gSmallRows = Except.ok cg) ↔
        BETA_THORNE_ROWS_COUNT ≤ gSmallRows.m ∧ MEDIAN_DETECTOR_COUNT ≤ gSmallRows.n) :=
  ⟨by decide, by decide,
    (process_data_invalid_dimensions gSmallRows (by decide) (by decide)).1⟩

/-- Every column reference of the all-zero grid `gZero16` is zero. -/
theorem median_betathrone_gZero16 (j : ℕ) : median_betathrone gZero16 j = 0 := by
  unfold median_betathrone
  have hz : ∀ i ∈ Finset.Ico (gZero16.m - BETA_THORNE_ROWS_COUNT) gZero16.m,
      bgValue gZero16 i j = 0 := by
    intro i _
    norm_num [bgValue, gZero16, SIGNAL_THRESHOLD]
  rw [Finset.sum_eq_zero hz, zero_div]

/-- Claim C6: if a column's beta-thorne reference average is zero, every
cell of that column not calibrated by the row stage is forced to exactly
zero by stage 2, whatever `overall_median` is. -/
theorem zero_row_reference_zeroes_column (g : RawGrid)
    (h1 : BETA_THORNE_ROWS_COUNT ≤ g.m) (h2 : MEDIAN_DETECTOR_COUNT ≤ g.n)
    (j : ℕ) (hj : j < g.n) (h0 : median_betathrone g j = 0)
    (i : ℕ) (hi : i < g.m) (hnc : ¬ (g.m - BETA_THORNE_ROWS_COUNT ≤ i)) :
    rowCalValue g i j = 0 := by
  simp [rowCalValue, rowFlag, hnc, h0]

theorem zero_row_reference_zeroes_column_witness :
    BETA_THORNE_ROWS_COUNT ≤ gZero16.m ∧ MEDIAN_DETECTOR_COUNT ≤ gZero16.n ∧
      (0 : ℕ) < gZero16.n ∧ (0 : ℕ) < gZero16.m ∧
      median_betathrone gZero16 0 = 0 ∧
      ¬ (gZero16.m - BETA_THORNE_ROWS_COUNT ≤ 0) ∧
      rowCalValue gZero16 0 0 = 0 :=
  ⟨by decide, by decide, by decide, by decide, median_betathrone_gZero16 0, by decide,
    zero_row_reference_zeroes_column gZero16 (by decide) (by decide) 0 (by decide)
      (median_betathrone_gZero16 0) 0 (by decide) (by decide)⟩

/-- Claim C7: the detector reference of row `i` is the sum of the
post-stage-2 values of the last `MEDIAN_DETECTOR_COUNT` columns of the
row, restricted to the cells not already calibrated after the row stage,
divided by the fixed constant `MEDIAN_DETECTOR_COUNT` (not by the number
of cells actually summed). -/
theorem median_detector_fixed_divisor (g : RawGrid)
    (h1 : BETA_THORNE_ROWS_COUNT ≤ g.m) (h2 : MEDIAN_DETECTOR_COUNT ≤ g.n)
    (i : ℕ) (hi : i < g.m) :
    median_detector g i =
      (∑ j in (Finset.Ico (g.n - MEDIAN_DETECTOR_COUNT) g.n).filter
          (fun _ => ¬ (g.m - BETA_THORNE_ROWS_COUNT ≤ i)), rowCalValue g i j)
        / (MEDIAN_DETECTOR_COUNT : ℚ) := by
  unfold median_detector
  congr 1
  by_cases h : g.m - BETA_THORNE_ROWS_COUNT ≤ i
  · rw [Finset.filter_false_of_mem (fun j _ => not_not_intro h), Finset.sum_empty]
    exact Finset.sum_eq_zero fun j _ => by simp [rowFlag, h]
  · rw [Finset.filter_true_of_mem (fun j _ => h)]
    exact Finset.sum_congr rfl fun j _ => by simp [rowFlag, h]

theorem median_detector_fixed_divisor_witness :
    BETA_THORNE_ROWS_COUNT ≤ gConst.m ∧ MEDIAN_DETECTOR_COUNT ≤ gConst.n ∧
      (0 : ℕ) < gConst.m ∧
      median_detector gConst 0 =
        (∑ j in (Finset.Ico (gConst.n - MEDIAN_DETECTOR_COUNT) gConst.n).filter
            (fun _ => ¬ (gConst.m - BETA_THORNE_ROWS_COUNT ≤ 0)), rowCalValue gConst 0 j)
          / (MEDIAN_DETECTOR_COUNT : ℚ) :=
  ⟨by decide, by decide, by decide,
    median_detector_fixed_divisor gConst (by decide) (by decide) 0 (by decide)⟩

/-- Claim C9: on every raw grid with admissible dimensions,
`process_data` succeeds (it is a total function of the model, so it
terminates) and the returned grid has exactly the input's height and
width. -/
theorem process_data_preserves_dims (g : RawGrid)
    (h1 : BETA_THORNE_ROWS_COUNT ≤ g.m) (h2 : MEDIAN_DETECTOR_COUNT ≤ g.n) :
    process_data g = Except.ok (calibrate g) ∧
      (calibrate g).m = g.m ∧ (calibrate g).n = g.n := by
  refine ⟨?_, rfl, rfl⟩
  unfold process_data
  rw [if_neg (not_lt.mpr h1), if_neg (not_lt.mpr h2)]

theorem process_data_preserves_dims_witness :
    BETA_THORNE_ROWS_COUNT ≤ gConst.m ∧ MEDIAN_DETECTOR_COUNT ≤ gConst.n ∧
      process_data gConst = Except.ok (calibrate gConst) ∧
      (calibrate gConst).m = gConst.m ∧ (calibrate gConst).n = gConst.n :=
  ⟨by decide, by decide, process_data_preserves_dims gConst (by decide) (by decide)⟩

/-- Claim C10: under the claim's proviso that every row whose cells
undergo the stage-3 division has a nonzero detector reference, every
output cell is nonnegative: stage 1 floors at zero and every later
scale or division combines nonnegative quantities.  (In this
exact-rational model the conclusion in fact holds even without the
proviso, since a zero divisor yields `0`.) -/
theorem calibrate_value_nonneg (g : RawGrid)
    (h1 : BETA_THORNE_ROWS_COUNT ≤ g.m) (h2 : MEDIAN_DETECTOR_COUNT ≤ g.n)
    (hdet : ∀ i, i < g.m - BETA_THORNE_ROWS_COUNT → MEDIAN_DETECTOR_COUNT < g.n →
      median_detector g i ≠ 0)
    (i j : ℕ) (hi : i < g.m) (hj : j < g.n) :
    0 ≤ ((calibrate g).cell i j).value :=
  clampedValue_nonneg g i j

theorem calibrate_value_nonneg_witness :
    BETA_THORNE_ROWS_COUNT ≤ gConst.m ∧ MEDIAN_DETECTOR_COUNT ≤ gConst.n ∧
      (∀ i, i < gConst.m - BETA_THORNE_ROWS_COUNT → MEDIAN_DETECTOR_COUNT < gConst.n →
        median_detector gConst i ≠ 0) ∧
      0 ≤ ((calibrate gConst).cell 0 0).value :=
  ⟨by decide, by decide,
    fun i hi _ => absurd hi (by rw [show gConst.m - BETA_THORNE_ROWS_COUNT = 0 from rfl]; omega),
    calibrate_value_nonneg gConst (by decide) (by decide)
      (fun i hi _ => absurd hi (by rw [show gConst.m - BETA_THORNE_ROWS_COUNT = 0 from rfl]; omega))
      0 0 (by decide) (by decide)⟩

/-- The beta-thorne references of `gScaled`: `49` for column `0` and
`24` for every other column. -/
theorem median_betathrone_gScaled (j : ℕ) :
    median_betathrone gScaled j = if j = 0 then 49 else 24 := by
  unfold median_betathrone
  have hs : ∀ i ∈ Finset.Ico (gScaled.m - BETA_THORNE_ROWS_COUNT) gScaled.m,
      bgValue gScaled i j = if j = 0 then 49 else 24 := by
    intro i hi
    rw [Finset.mem_Ico, show gScaled.m - BETA_THORNE_ROWS_COUNT = 1 from rfl] at hi
    have hine : ¬ i = 0 := by omega
    by_cases hj : j = 0
    · norm_num [bgValue, gScaled, hine, hj, SIGNAL_THRESHOLD]
    · norm_num [bgValue, gScaled, hine, hj, SIGNAL_THRESHOLD]
  rw [Finset.sum_congr rfl hs, Finset.sum_const, Nat.card_Ico]
  by_cases hj : j = 0
  · norm_num [hj, gScaled, BETA_THORNE_ROWS_COUNT, nsmul_eq_mul]
  · norm_num [hj, gScaled, BETA_THORNE_ROWS_COUNT, nsmul_eq_mul]

/-- The overall row reference of `gScaled` is `49/2`. -/
theorem overall_median_gScaled : overall_median gScaled = 49 / 2 := by
  unfold overall_median
  have hs : ∀ j ∈ Finset.range gScaled.n,
      median_betathrone gScaled j = 24 + (if j = 0 then (25 : ℚ) else 0) := by
    intro j _
    rw [median_betathrone_gScaled]
    split_ifs <;> norm_num
  rw [Finset.sum_congr rfl hs, Finset.sum_add_distrib, Finset.sum_const, Finset.card_range]
  rw [Finset.sum_ite_eq' (Finset.range gScaled.n) 0 (fun _ => (25 : ℚ))]
  norm_num [gScaled, nsmul_eq_mul]

/-- Stage 2 halves the cell `(0,0)` of `gScaled`: its background value
`1` is scaled by `overall_median / median_betathrone 0 = (49/2)/49`. -/
theorem rowCalValue_gScaled_00 : rowCalValue gScaled 0 0 = 1 / 2 := by
  unfold rowCalValue
  rw [show rowFlag gScaled 0 = false from rfl]
  rw [median_betathrone_gScaled, overall_median_gScaled]
  norm_num [bgValue, gScaled, SIGNAL_THRESHOLD]

/-- Claim C3 counterexample: in `gScaled` the cell `(0,0)` is calibrated
(it lies in the last 50 columns) but its output value `1/2` is not its
background-subtracted raw reading `1`: stage 2 scaled it by the column
proportion before stage 3 marked it calibrated. -/
theorem calibrated_cell_modified_by_proportion :
    ((calibrate gScaled).cell 0 0).is_calibrated = true ∧
      bgValue gScaled 0 0 = 1 ∧
      rowCalValue gScaled 0 0 = 1 / 2 ∧
      ((calibrate gScaled).cell 0 0).value = 1 / 2 ∧
      ((calibrate gScaled).cell 0 0).value ≠ bgValue gScaled 0 0 := by
  have hbg : bgValue gScaled 0 0 = 1 := by
    norm_num [bgValue, gScaled, SIGNAL_THRESHOLD]
  have hval : ((calibrate gScaled).cell 0 0).value = 1 / 2 := by
    show clampedValue gScaled 0 0 = 1 / 2
    unfold clampedValue detCalValue
    rw [show calibratedFlag gScaled 0 0 = true from rfl]
    norm_num [rowCalValue_gScaled_00]
  refine ⟨rfl, hbg, rowCalValue_gScaled_00, hval, ?_⟩
  rw [hbg, hval]
  norm_num

/-- Claim C3 as amended: a calibrated output cell always skips the
stage-3 division (its pre-clamp value is its stage-2 value), and a cell
of the beta-thorne rows additionally skips the stage-2 proportion
scaling, so only there is the output the clamped background-subtracted
raw reading; a cell calibrated only by the detector columns keeps its
stage-2 scaled value. -/
theorem calibrated_cell_keeps_stage2_value (g : RawGrid)
    (h1 : BETA_THORNE_ROWS_COUNT ≤ g.m) (h2 : MEDIAN_DETECTOR_COUNT ≤ g.n)
    (i j : ℕ) (hi : i < g.m) (hj : j < g.n)
    (hcal : ((calibrate g).cell i j).is_calibrated = true) :
    detCalValue g i j = rowCalValue g i j ∧
      (g.m - BETA_THORNE_ROWS_COUNT ≤ i → rowCalValue g i j = bgValue g i j) ∧
      ((calibrate g).cell i j).value =
        (if rowCalValue g i j > 1 then 1 else rowCalValue g i j) := by
  have hflag : calibratedFlag g i j = true := hcal
  refine ⟨?_, ?_, ?_⟩
  · unfold detCalValue
    rw [hflag, if_pos rfl]
  · intro hrow
    unfold rowCalValue
    rw [show rowFlag g i = true from by simp [rowFlag, hrow], if_pos rfl]
  · show clampedValue g i j = _
    unfold clampedValue detCalValue
    rw [hflag, if_pos rfl]

theorem calibrated_cell_keeps_stage2_value_witness :
    BETA_THORNE_ROWS_COUNT ≤ gConst.m ∧ MEDIAN_DETECTOR_COUNT ≤ gConst.n ∧
      ((calibrate gConst).cell 0 0).is_calibrated = true ∧
      (detCalValue gConst 0 0 = rowCalValue gConst 0 0 ∧
        (gConst.m - BETA_THORNE_ROWS_COUNT ≤ 0 →
          rowCalValue gConst 0 0 = bgValue gConst 0 0) ∧
        ((calibrate gConst).cell 0 0).value =
          (if rowCalValue gConst 0 0 > 1 then 1 else rowCalValue gConst 0 0)) :=
  ⟨by decide, by decide, rfl,
    calibrated_cell_keeps_stage2_value gConst (by decide) (by decide) 0 0
      (by decide) (by decide) rfl⟩

/-- Claim C4 counterexample: on an uncalibrated cell of value `1/2` the
encoder emits gray level `127` — `static_cast<unsigned char>` truncates
`127.5` — while the spec's `round(value * 255)` gives `128`. -/
theorem encoder_truncates_not_rounds :
    (encodePixel ⟨1 / 2, false⟩).r = 127 ∧
      roundHalfAway ((1 / 2 : ℚ) * 255) = 128 ∧
      (encodePixel ⟨1 / 2, false⟩).r ≠ roundHalfAway ((1 / 2 : ℚ) * 255) := by
  have h1 : (encodePixel ⟨1 / 2, false⟩).r = 127 := by
    show truncTowardZero ((1 / 2 : ℚ) * 255) = 127
    unfold truncTowardZero
    rw [if_pos (by norm_num)]
    exact Int.floor_eq_iff.mpr (by norm_num)
  have h2 : roundHalfAway ((1 / 2 : ℚ) * 255) = 128 := by
    unfold roundHalfAway
    rw [if_pos (by norm_num)]
    exact Int.floor_eq_iff.mpr (by norm_num)
  refine ⟨h1, h2, ?_⟩
  rw [h1, h2]
  decide

/-- Claim C4 as amended: a calibrated cell is emitted as full red
(`R=255, G=0, B=0`) regardless of its value; an uncalibrated cell is
emitted as a gray pixel whose three channels each equal
`value * 255` truncated toward zero (the C++ `static_cast`), not
rounded. -/
theorem encoder_red_or_truncated_gray :
    (∀ v : ℚ, encodePixel ⟨v, true⟩ = ⟨255, 0, 0⟩) ∧
      (∀ (d : CalGrid) (i j : ℕ), (d.cell i j).is_calibrated = false →
        createImage d i j =
          ⟨truncTowardZero ((d.cell i j).value * 255),
            truncTowardZero ((d.cell i j).value * 255),
            truncTowardZero ((d.cell i j).value * 255)⟩) := by
  refine ⟨fun v => rfl, fun d i j h => ?_⟩
  simp [createImage, encodePixel, h]

theorem encoder_red_or_truncated_gray_witness :
    (dGray.cell 0 0).is_calibrated = false ∧
      createImage dGray 0 0 =
        ⟨truncTowardZero ((dGray.cell 0 0).value * 255),
          truncTowardZero ((dGray.cell 0 0).value * 255),
          truncTowardZero ((dGray.cell 0 0).value * 255)⟩ :=
  ⟨rfl, encoder_red_or_truncated_gray.2 dGray 0 0 rfl⟩

/-- Claim C8: the thickness transform computes `t = -log v` for `v > 0`
and the sentinel `t = 10` otherwise, emits `round(t * 25)` clamped to
`[0, 255]`; a cell of value `1` maps to byte `0`, a cell of value `0`
maps to byte `250`, and the calibration flag is ignored. -/
theorem thickness_transform_formula :
    (∀ v : ℝ, thicknessByte v =
        min 255 (max 0 (roundHalfAwayR ((if v > 0 then -Real.log v else 10) * 25)))) ∧
      thicknessByte 1 = 0 ∧
      thicknessByte 0 = 250 ∧
      (∀ (v : ℚ) (b b' : Bool), thicknessOfCell ⟨v, b⟩ = thicknessOfCell ⟨v, b'⟩) := by
  have key : ∀ v : ℝ, thicknessByte v =
      min 255 (max 0 (roundHalfAwayR ((if v > 0 then -Real.log v else 10) * 25))) := by
    intro v
    have hdef : thicknessByte v =
        (if (if roundHalfAwayR ((if v > 0 then -Real.log v else 10) * 25) < 0 then 0
            else roundHalfAwayR ((if v > 0 then -Real.log v else 10) * 25)) > 255 then (255 : ℤ)
          else (if roundHalfAwayR ((if v > 0 then -Real.log v else 10) * 25) < 0 then 0
            else roundHalfAwayR ((if v > 0 then -Real.log v else 10) * 25))) := rfl
    rw [hdef]
    generalize roundHalfAwayR ((if v > 0 then -Real.log v else 10) * 25) = x
    split_ifs <;> omega
  refine ⟨key, ?_, ?_, fun v b b' => rfl⟩
  · rw [key 1, if_pos one_pos, Real.log_one, neg_zero, zero_mul]
    rw [show roundHalfAwayR 0 = 0 from ?_]
    · decide
    · unfold roundHalfAwayR
      rw [if_pos le_rfl, zero_add]
      exact Int.floor_eq_iff.mpr (by norm_num)
  · rw [key 0, if_neg (lt_irrefl 0)]
    rw [show roundHalfAwayR ((10 : ℝ) * 25) = 250 from ?_]
    · decide
    · unfold roundHalfAwayR
      rw [if_pos (by norm_num)]
      exact Int.floor_eq_iff.mpr (by norm_num)

end XRay
